import Mathlib

/-!
Verification development for the local RPC transport of the
griptape-nodes-blender repository: the socket server that runs inside
Blender (`blender/blender_socket_server.py`) and the socket client
(`blender/socket_client.py`).

The embedding is shallow: the Python dictionaries travelling over the wire
are modelled by an inductive `Json` type; Python exceptions are modelled by
an explicit `PyExc` value routed through `Except`; the network and the
Blender host (`bpy`) are modelled as explicit environments supplying the
outcome of every effectful sub-operation (socket reads, `exec`, attribute
access).  The JSON codec (`json.loads`) is an external library and is
modelled as a parameter `parse : String → Option Json`; Python floats that
are merely passed through (timestamps, object locations) are modelled as
integers since the code never computes with them.
-/

namespace BlenderRPC

/-- Model of a JSON value (a Python object travelling over the wire).
Numbers are modelled as integers: the code only passes them through. -/
inductive Json where
  | null : Json
  | bool : Bool → Json
  | num : Int → Json
  | str : String → Json
  | arr : List Json → Json
  | obj : List (String × Json) → Json

/-- Dictionary lookup, modelling Python `d.get(key)`: first binding wins. -/
def jget (j : Json) (key : String) : Option Json :=
  match j with
  | Json.obj kvs => (kvs.find? (fun p => p.1 == key)).map (fun p => p.2)
  | _ => none

/-- Whether the value is a JSON object (a Python `dict`). -/
def Json.isObj : Json → Bool
  | Json.obj _ => true
  | _ => false

/-- Single-quote character as a string, used to build Python error messages
without a quote character appearing literally in this file. -/
def sq : String := String.singleton (Char.ofNat 39)

/-- Kinds of Python exceptions the transport code can see.  The flat kinds
carry the class relationships the `except` clauses rely on via the
`catches*` predicates below (in CPython, `socket.timeout`,
`ConnectionRefusedError`, `ConnectionResetError` and `BrokenPipeError` are
all subclasses of `OSError`; everything here is a subclass of
`Exception`). -/
inductive ExcKind where
  | socketTimeout : ExcKind
  | connRefused : ExcKind
  | connReset : ExcKind
  | brokenPipe : ExcKind
  | osError : ExcKind
  | jsonDecode : ExcKind
  | unicodeDecode : ExcKind
  | attrErr : ExcKind
  | unboundLocal : ExcKind
  | typeErr : ExcKind
  | otherExc : ExcKind
deriving DecidableEq

/-- Model of a raised Python exception: its class and its `str(e)` text. -/
structure PyExc where
  kind : ExcKind
  msg : String

/-- Model of a Python `bytes` attribute value such as `bpy.app.build_date`:
`truthy` is Python truthiness, `utf8` is the result of `.decode(chr(39))`
(`none` when decoding raises), `repr` is `str(...)` of the raw value. -/
structure PyBytes where
  truthy : Bool
  utf8 : Option String
  repr : String

/-- Model of one entry of `bpy.data.objects`. -/
structure SceneObj where
  name : String
  otype : String
  location : List Int
  rotation : List Int

/-- Model of the render settings read by `_get_scene_info`. -/
structure RenderInfo where
  engine : String
  resolutionX : Int
  resolutionY : Int
  resolutionPercentage : Int

/-- Model of the scene attributes read by `_get_scene_info`. -/
structure SceneData where
  name : String
  frameCurrent : Int
  frameStart : Int
  frameEnd : Int
  render : RenderInfo

/-- Outcome of the Python `exec(code, namespace)` call inside
`_execute_code`: it either terminates normally leaving a final value in
the `result` slot of the namespace (`Json.null` models the slot still
holding `None`), or raises. -/
inductive ExecOutcome where
  | normal : Json → ExecOutcome
  | memErr : ExecOutcome
  | recErr : ExecOutcome
  | exc : String → ExecOutcome

/-- Environment describing what the Blender host does when the handlers
touch it.  Fields that are plain attribute reads which may raise are
modelled as `Except PyExc`; `exec` gives the outcome of executing a code
payload (the payload value is a `Json` because `params.get` can hand the
handler any JSON value, not only a string). -/
structure HostEnv where
  versionString : Except PyExc String
  timestamp : Except PyExc Int
  scene : Except PyExc SceneData
  buildDate : Option PyBytes
  buildHash : Option PyBytes
  objects : Except PyExc (List SceneObj)
  sceneCamera : Except PyExc (Option String)
  exec : Json → ExecOutcome

/-- Python `str(x)` as used by the f-strings in the server, for the JSON
values that can appear as a `command`.  Escaping inside nested reprs is
not modelled (no claim depends on it). -/
def pyStr : Json → String
  | Json.null => "None"
  | Json.bool b => if b then "True" else "False"
  | Json.num n => Int.repr n
  | Json.str s => s
  | Json.arr _ => "[...]"
  | Json.obj _ => "\x7b...\x7d"

/-- Python `str(x)` for an optional value: `dict.get` of a missing key
gives `None`. -/
def pyStrOpt : Option Json → String
  | none => "None"
  | some j => pyStr j

/-- Lower-case a string, modelling Python `str.lower()`. -/
def strLower (s : String) : String := String.mk (s.data.map Char.toLower)

/-- Python whitespace as stripped by `str.strip()`. -/
def pySpace (c : Char) : Bool :=
  c = ' ' || c = '\t' || c = '\n' || c = '\x0d' || c = '\x0b' || c = '\x0c'

/-- Python `str.strip()`: drop whitespace from both ends. -/
def pyStrip (s : String) : String :=
  String.mk (((s.data.dropWhile pySpace).reverse.dropWhile pySpace).reverse)

/-- Helper for substring search over character lists. -/
def subAux (needle : List Char) : List Char → Bool
  | [] => needle.isPrefixOf []
  | c :: rest => needle.isPrefixOf (c :: rest) || subAux needle rest

/-- Whether `needle` occurs as a substring of `hay`, modelling Python
`needle in hay`. -/
def strHas (hay needle : String) : Bool := subAux needle.data hay.data

/-- BlenderSocketServer._health_check (blender_socket_server.py lines
206-213): builds the health object from `bpy.app.version_string` and
`time.time()`; it has no `try` of its own, so a fault in either read
propagates (to be caught at the dispatch boundary). -/
def healthCheck (env : HostEnv) : Except PyExc Json :=
  match env.versionString with
  | Except.error e => Except.error e
  | Except.ok v =>
    match env.timestamp with
    | Except.error e => Except.error e
    | Except.ok t =>
      Except.ok (Json.obj [("success", Json.bool true),
                           ("status", Json.str "healthy"),
                           ("blender_version", Json.str v),
                           ("timestamp", Json.num t)])

/-- Resolution of `bpy.app.build_date` / `build_hash` into a string
(blender_socket_server.py lines 220-229): decode UTF-8 when the attribute
is truthy; on a decode fault fall back to `str(...)`; falsy gives
"Unknown". -/
def decodeBuild (b : Option PyBytes) : String :=
  match b with
  | none => "Unknown"
  | some bytes =>
    if bytes.truthy then
      match bytes.utf8 with
      | some s => s
      | none => bytes.repr
    else "Unknown"

/-- BlenderSocketServer._get_scene_info (lines 215-252): the whole body is
wrapped in a `try` whose `except` returns an error object, so this handler
never raises.  A fault while reading the scene or the version string is
modelled by the corresponding `Except` field. -/
def getSceneInfo (env : HostEnv) : Json :=
  match env.scene, env.versionString with
  | Except.ok s, Except.ok v =>
    Json.obj [("success", Json.bool true),
              ("scene", Json.obj [("name", Json.str s.name),
                                  ("frame_current", Json.num s.frameCurrent),
                                  ("frame_start", Json.num s.frameStart),
                                  ("frame_end", Json.num s.frameEnd)]),
              ("blender", Json.obj [("version", Json.str v),
                                    ("build_date", Json.str (decodeBuild env.buildDate)),
                                    ("build_hash", Json.str (decodeBuild env.buildHash))]),
              ("render", Json.obj [("engine", Json.str s.render.engine),
                                   ("resolution_x", Json.num s.render.resolutionX),
                                   ("resolution_y", Json.num s.render.resolutionY),
                                   ("resolution_percentage", Json.num s.render.resolutionPercentage)])]
  | Except.error e, _ => Json.obj [("success", Json.bool false), ("error", Json.str e.msg)]
  | _, Except.error e => Json.obj [("success", Json.bool false), ("error", Json.str e.msg)]

/-- One camera entry built by `_list_cameras`; `active` compares the
object with `bpy.context.scene.camera` (names are unique in Blender, so
identity is modelled as name equality). -/
def cameraEntry (active : Option String) (o : SceneObj) : Json :=
  Json.obj [("name", Json.str o.name),
            ("location", Json.arr (o.location.map Json.num)),
            ("rotation", Json.arr (o.rotation.map Json.num)),
            ("active", Json.bool (active == some o.name))]

/-- BlenderSocketServer._list_cameras (lines 254-274): filters the scene
objects for cameras and reports the list together with its length; the
whole body is wrapped in a `try` returning an error object, so this
handler never raises. -/
def listCameras (env : HostEnv) : Json :=
  match env.objects, env.sceneCamera with
  | Except.ok os, Except.ok active =>
    let cameras := (os.filter (fun o => o.otype == "CAMERA")).map (cameraEntry active)
    Json.obj [("success", Json.bool true),
              ("cameras", Json.arr cameras),
              ("count", Json.num cameras.length),
              ("active_camera", match active with
                                | some n => Json.str n
                                | none => Json.null)]
  | Except.error e, _ => Json.obj [("success", Json.bool false), ("error", Json.str e.msg)]
  | _, Except.error e => Json.obj [("success", Json.bool false), ("error", Json.str e.msg)]

/-- BlenderSocketServer._execute_code (lines 276-317): runs the payload in
a fresh namespace and converts every failure of the payload into an error
object; `MemoryError` and `RecursionError` get dedicated messages, other
exceptions get a dependency-graph check on the lowered message.  The
`gc.collect()` calls cannot raise and are modelled as no-ops, so the outer
`except` fallback of the source is unreachable in the model and this
handler never raises. -/
def executeCode (env : HostEnv) (code : Json) : Json :=
  match env.exec code with
  | ExecOutcome.normal r =>
    match r with
    | Json.null => Json.obj [("success", Json.bool true),
                             ("message", Json.str "Code executed successfully")]
    | r => Json.obj [("success", Json.bool true), ("result", r)]
  | ExecOutcome.memErr =>
    Json.obj [("success", Json.bool false),
              ("error", Json.str "Out of memory - scene too complex for this operation")]
  | ExecOutcome.recErr =>
    Json.obj [("success", Json.bool false),
              ("error", Json.str "Operation too complex - recursion limit exceeded")]
  | ExecOutcome.exc msg =>
    if strHas (strLower msg) "dependency" || strHas (strLower msg) "depsgraph" then
      Json.obj [("success", Json.bool false),
                ("error", Json.str ("Scene dependency error: " ++ msg ++ ". Try with a simpler scene."))]
    else
      Json.obj [("success", Json.bool false),
                ("error", Json.str ("Code execution failed: " ++ msg))]

/-- Message of the AttributeError raised by `request.get(...)` when the
decoded request is not a dict (the exact CPython text is irrelevant to
every claim). -/
def attrMsgRequest : String :=
  "object has no attribute " ++ sq ++ "get" ++ sq

/-- Message of the AttributeError raised by `list(params.keys())` in the
debug print when `params` is not a dict. -/
def attrMsgParams : String :=
  "object has no attribute " ++ sq ++ "keys" ++ sq

/-- Error object `{success: false, error: "Unknown command: <name>"}`. -/
def unknownResp (name : String) : Json :=
  Json.obj [("success", Json.bool false),
            ("error", Json.str ("Unknown command: " ++ name))]

/-- Command dispatch of BlenderSocketServer._process_request (lines
186-196): the `if command == ...` chain.  The comparison of `command`
with a string literal is `False` for every non-string value, which the
match models; a handler may raise, hence the `Except`. -/
def dispatchCommand (command : Option Json) (params : Json) (env : HostEnv) :
    Except PyExc Json :=
  match command with
  | some (Json.str c) =>
    if c = "health_check" then healthCheck env
    else if c = "get_scene_info" then Except.ok (getSceneInfo env)
    else if c = "list_cameras" then Except.ok (listCameras env)
    else if c = "execute_code" then
      Except.ok (executeCode env ((jget params "code").getD (Json.str "")))
    else Except.ok (unknownResp c)
  | other => Except.ok (unknownResp (pyStrOpt other))

/-- Fault boundary of `_process_request` (lines 186 and 201-204): the
`try` around the dispatch converts any exception raised by a handler into
`{success: false, error: "Command processing failed: ..."}`. -/
def faultBoundary (result : Except PyExc Json) : Json :=
  match result with
  | Except.ok r => r
  | Except.error e =>
    Json.obj [("success", Json.bool false),
              ("error", Json.str ("Command processing failed: " ++ e.msg))]

/-- BlenderSocketServer._process_request (lines 178-204).  Reads `command`
and `params` from the request (raising AttributeError when the request is
not a dict); the debug print of `list(params.keys())` raises before the
fault boundary when `params` is not a dict; then dispatches inside the
fault boundary. -/
def processRequest (req : Json) (env : HostEnv) : Except PyExc Json :=
  match req with
  | Json.obj _ =>
    match (jget req "params").getD (Json.obj []) with
    | Json.obj kvs =>
      Except.ok (faultBoundary (dispatchCommand (jget req "command") (Json.obj kvs) env))
    | _ => Except.error (PyExc.mk ExcKind.attrErr attrMsgParams)
  | _ => Except.error (PyExc.mk ExcKind.attrErr attrMsgRequest)

/-- One event observed by the receive loop of `_handle_client`: a chunk
delivered by `recv` (the empty chunk models the peer closing), the 5 s
receive timeout elapsing, or `recv` raising some other exception. -/
inductive RecvEvent where
  | chunk : String → RecvEvent
  | timeout : RecvEvent
  | err : PyExc → RecvEvent

/-- State left behind by the receive loop: the accumulated byte buffer and
the decoded request if a speculative parse succeeded (the Python local
`request` stays unbound when it is `none`). -/
structure RecvState where
  buffer : String
  request : Option Json

/-- Receive loop of BlenderSocketServer._handle_client (lines 117-140):
append each chunk to the buffer, break on an empty read / timeout / other
receive error, and after every chunk speculatively try to parse the whole
buffer (a UnicodeDecodeError or JSONDecodeError means keep reading, which
the `parse` parameter models by returning `none`).  A trailing event list
that runs out models the loop still blocked in `recv`; the theorems only
use traces that end the loop. -/
def recvLoop (parse : String → Option Json) : List RecvEvent → String → RecvState
  | [], buf => RecvState.mk buf none
  | RecvEvent.timeout :: _, buf => RecvState.mk buf none
  | RecvEvent.err _ :: _, buf => RecvState.mk buf none
  | RecvEvent.chunk s :: rest, buf =>
    if s = "" then RecvState.mk buf none
    else
      match parse (buf ++ s) with
      | some j => RecvState.mk (buf ++ s) (some j)
      | none => recvLoop parse rest (buf ++ s)

/-- Message of the UnboundLocalError raised when `_handle_client` reaches
`self._process_request(request)` with `request` never assigned (buffer
non-empty but never decoded). -/
def unboundLocalMsg : String :=
  "cannot access local variable " ++ sq ++ "request" ++ sq ++
  " where it is not associated with a value"

/-- BlenderSocketServer._handle_client (lines 108-176) after the receive
loop: an empty buffer returns without sending anything; otherwise the
request is processed — the decoded request when one exists, else the
unbound local `request` raises and is caught by the `except` at line 150 —
and the resulting response object is serialized and written to the socket.
The returned value is the response handed to `sendall` (`none` when the
handler returns without sending). -/
def handleClient (parse : String → Option Json) (env : HostEnv)
    (events : List RecvEvent) : Option Json :=
  if (recvLoop parse events "").buffer = "" then none
  else
    some (match (recvLoop parse events "").request with
      | some req =>
        match processRequest req env with
        | Except.ok r => r
        | Except.error e =>
          Json.obj [("success", Json.bool false),
                    ("error", Json.str ("Processing failed: " ++ e.msg))]
      | none =>
        Json.obj [("success", Json.bool false),
                  ("error", Json.str ("Processing failed: " ++ unboundLocalMsg))])

/-- Configuration of BlenderSocketClient (socket_client.py lines 20-23):
host, port and the long command timeout (seconds). -/
structure ClientCfg where
  host : String
  port : Nat
  timeout : Nat

/-- Outcome of the chunked receive phase of one client attempt
(socket_client.py lines 64-80): either the list of chunks read until the
server closed, or an exception raised during the loop (a timeout, a
connection reset, or anything else). -/
inductive RecvResult where
  | chunks : List String → RecvResult
  | raisedExc : PyExc → RecvResult

/-- What the network does on one client attempt: the outcome of
`sock.connect` and `sock.sendall` (`none` means success) and the receive
phase. -/
structure AttemptEnv where
  connect : Option PyExc
  send : Option PyExc
  recv : RecvResult

/-- Exception classes caught by `except (socket.timeout,
ConnectionRefusedError, OSError)` around `connect` (line 43): OSError is a
superclass of all the socket errors modelled here. -/
def catchesConnect (k : ExcKind) : Bool :=
  match k with
  | ExcKind.socketTimeout => true
  | ExcKind.connRefused => true
  | ExcKind.connReset => true
  | ExcKind.brokenPipe => true
  | ExcKind.osError => true
  | _ => false

/-- Exception classes caught by `except (socket.timeout, BrokenPipeError,
ConnectionResetError)` around `sendall` (line 60). -/
def catchesSend (k : ExcKind) : Bool :=
  match k with
  | ExcKind.socketTimeout => true
  | ExcKind.brokenPipe => true
  | ExcKind.connReset => true
  | _ => false

/-- Error object returned when `sendall` fails (line 61). -/
def sendFailResp (e : PyExc) : Json :=
  Json.obj [("success", Json.bool false),
            ("error", Json.str ("Failed to send command: " ++ e.msg))]

/-- Error object returned when the receive loop times out (line 78). -/
def cmdTimeoutResp (cfg : ClientCfg) : Json :=
  Json.obj [("success", Json.bool false),
            ("error", Json.str ("Command timed out after " ++ Nat.repr cfg.timeout ++ " seconds"))]

/-- Error object returned when the connection is lost while receiving
(line 80). -/
def connLostResp (e : PyExc) : Json :=
  Json.obj [("success", Json.bool false),
            ("error", Json.str ("Connection lost during command execution: " ++ e.msg))]

/-- Error object returned when no chunks arrived at all (line 73). -/
def emptyResp : Json :=
  Json.obj [("success", Json.bool false), ("error", Json.str "Empty response from server")]

/-- Error object returned when the joined data strips to nothing
(line 85). -/
def emptyStripResp : Json :=
  Json.obj [("success", Json.bool false), ("error", Json.str "Empty response from Blender server")]

/-- Error object returned when the full response fails to parse as JSON
(lines 90-94): the message embeds the first 100 characters of the raw
response. -/
def invalidJsonResp (data : String) : Json :=
  Json.obj [("success", Json.bool false),
            ("error", Json.str ("Invalid JSON response from server. Raw response: " ++
                                String.mk (data.data.take 100) ++ "..."))]

/-- Final error object built when `connect` fails on the last attempt
(lines 45-48). -/
def connectFinalResp (cfg : ClientCfg) (e : PyExc) : Json :=
  Json.obj [("success", Json.bool false),
            ("error", Json.str ("Cannot connect to Blender server at " ++ cfg.host ++ ":" ++
                                Nat.repr cfg.port ++
                                ". Make sure Blender socket server is running. Error: " ++ e.msg))]

/-- Final error object built when the outer `except Exception` fires on
the last attempt (line 98). -/
def unexpectedResp (e : PyExc) : Json :=
  Json.obj [("success", Json.bool false),
            ("error", Json.str ("Unexpected error: " ++ e.msg))]

/-- Error object of the fallback after the `for` loop (line 102). -/
def allFailedResp : Json :=
  Json.obj [("success", Json.bool false), ("error", Json.str "All connection attempts failed")]

/-- How one attempt of `_send_command` resolves before the loop-level
logic: `payload` is the `return response` of a successfully decoded
server reply (line 88), `localErr` is any of the other in-attempt error
returns, `connFail` is a caught connect failure (retried or finalized at
the loop level), `raised` is an exception not matched by the specific
handlers, which falls to the outer `except Exception`. -/
inductive StepResult where
  | payload : Json → StepResult
  | localErr : Json → StepResult
  | connFail : PyExc → StepResult
  | raised : PyExc → StepResult

/-- One attempt of BlenderSocketClient._send_command (lines 36-94),
excluding the loop-level retry decisions: connect, send, chunked receive
to end-of-stream, UTF-8 decode (a decode fault is an uncaught exception),
emptiness checks, and the JSON parse of the joined data. -/
def attemptStep (cfg : ClientCfg) (parse : String → Option Json) (a : AttemptEnv) : StepResult :=
  match a.connect with
  | some e => if catchesConnect e.kind then StepResult.connFail e else StepResult.raised e
  | none =>
    match a.send with
    | some e => if catchesSend e.kind then StepResult.localErr (sendFailResp e) else StepResult.raised e
    | none =>
      match a.recv with
      | RecvResult.raisedExc e =>
        match e.kind with
        | ExcKind.socketTimeout => StepResult.localErr (cmdTimeoutResp cfg)
        | ExcKind.connReset => StepResult.localErr (connLostResp e)
        | ExcKind.brokenPipe => StepResult.localErr (connLostResp e)
        | _ => StepResult.raised e
      | RecvResult.chunks cs =>
        if cs.isEmpty then StepResult.localErr emptyResp
        else
          if pyStrip (String.join cs) = "" then StepResult.localErr emptyStripResp
          else
            match parse (String.join cs) with
            | some j => StepResult.payload j
            | none => StepResult.localErr (invalidJsonResp (String.join cs))

/-- Retry loop of BlenderSocketClient._send_command (lines 35-102), with
`remaining = max_retries - attempt`.  A caught connect failure sleeps and
retries on a non-last attempt and builds the final connect error on the
last; the outer `except Exception` does the same with the unexpected-error
message; every other path returns its response immediately.  The second
component counts the `sock.connect` calls performed. -/
def sendCommandFrom (cfg : ClientCfg) (parse : String → Option Json)
    (env : Nat → AttemptEnv) : Nat → Nat → Json × Nat
  | _, 0 => (allFailedResp, 0)
  | attempt, r + 1 =>
    match attemptStep cfg parse (env attempt) with
    | StepResult.payload j => (j, 1)
    | StepResult.localErr j => (j, 1)
    | StepResult.connFail e =>
      if r = 0 then (connectFinalResp cfg e, 1)
      else
        let rest := sendCommandFrom cfg parse env (attempt + 1) r
        (rest.1, rest.2 + 1)
    | StepResult.raised e =>
      if r = 0 then (unexpectedResp e, 1)
      else
        let rest := sendCommandFrom cfg parse env (attempt + 1) r
        (rest.1, rest.2 + 1)

/-- Request object built at the top of `_send_command` (lines 27-30):
`params or` an empty dict (for a parameter map the two are
indistinguishable, since an empty dict is falsy). -/
def buildRequest (command : String) (params : Option (List (String × Json))) : Json :=
  Json.obj [("command", Json.str command), ("params", Json.obj (params.getD []))]

/-- BlenderSocketClient._send_command with `max_retries = 3`: the encoded
request bytes are absorbed by the network environment, which determines
each attempt's outcome.  Returns the response together with the number of
connect calls performed. -/
def sendCommandRun (cfg : ClientCfg) (parse : String → Option Json)
    (command : String) (params : Option (List (String × Json)))
    (env : Nat → AttemptEnv) : Json × Nat :=
  let _request := buildRequest command params
  sendCommandFrom cfg parse env 0 3

/-- Value returned to the caller of `_send_command`. -/
def sendCommand (cfg : ClientCfg) (parse : String → Option Json)
    (command : String) (params : Option (List (String × Json)))
    (env : Nat → AttemptEnv) : Json :=
  (sendCommandRun cfg parse command params env).1

/-- Whether a response is the error shape `{success: false, error:
<string>, ...}`. -/
def errorShaped (j : Json) : Prop :=
  jget j "success" = some (Json.bool false) ∧ ∃ m, jget j "error" = some (Json.str m)

/-- Payload decoded by one attempt when its session reaches the `return
response` at line 88, else `none`. -/
def attemptPayload (cfg : ClientCfg) (parse : String → Option Json) (a : AttemptEnv) : Option Json :=
  match attemptStep cfg parse a with
  | StepResult.payload j => some j
  | _ => none

/-!
Demo environments used by the concrete witnesses and counterexamples.
-/

/-- Demo host environment: a healthy Blender 4.0.2 scene with no objects,
whose `exec` raises MemoryError for the payload "boom" and RecursionError
for the payload "deep" and otherwise runs fine without setting `result`. -/
def envDemo : HostEnv :=
  HostEnv.mk (Except.ok "4.0.2") (Except.ok 1700000000)
    (Except.ok (SceneData.mk "Scene" 1 1 250 (RenderInfo.mk "BLENDER_EEVEE" 1920 1080 100)))
    (some (PyBytes.mk true (some "2023-11-17") "bdate"))
    (some (PyBytes.mk true (some "abc123") "bhash"))
    (Except.ok []) (Except.ok none)
    (fun c => match c with
      | Json.str s =>
        if s = "boom" then ExecOutcome.memErr
        else if s = "deep" then ExecOutcome.recErr
        else ExecOutcome.normal Json.null
      | _ => ExecOutcome.exc "exec arg must be a string")

/-- Wire text of the demo health_check request. -/
def reqDemoStr : String := "\x7b\"command\": \"health_check\", \"params\": \x7b\x7d\x7d"

/-- Decoded form of the demo health_check request. -/
def reqDemoJson : Json :=
  Json.obj [("command", Json.str "health_check"), ("params", Json.obj [])]

/-- Demo JSON codec agreeing with `json.loads` on the strings the demo
traces touch: the complete request text decodes, every other (partial or
garbage) buffer fails to decode. -/
def parseDemo : String → Option Json :=
  fun s => if s = reqDemoStr then some reqDemoJson else none

/-- Truncated request text (connection interrupted mid-send): not valid
JSON. -/
def truncDemoStr : String := "\x7b\"command\": \"health_che"

/-- Demo client configuration (the source defaults). -/
def cfgDemo : ClientCfg := ClientCfg.mk "127.0.0.1" 8765 60

/-- Exception raised by `connect` against a closed port. -/
def refusedExc : PyExc := PyExc.mk ExcKind.connRefused "[Errno 111] Connection refused"

/-- Network in which every connect attempt is refused. -/
def envRefused : Nat → AttemptEnv :=
  fun _ => AttemptEnv.mk (some refusedExc) none (RecvResult.chunks [])

/-- JSON codec that decodes nothing (never consulted by the refused
trace). -/
def noParse : String → Option Json := fun _ => none

/-- Exception raised by `sendall` when the peer vanished. -/
def pipeExc : PyExc := PyExc.mk ExcKind.brokenPipe "Broken pipe"

/-- JSON codec agreeing with `json.loads` on the reply text "ok"
(decoding it to a success object). -/
def okParse : String → Option Json :=
  fun s => if s = "ok" then some (Json.obj [("success", Json.bool true)]) else none

/-- Network in which the first attempt connects but the send fails with a
broken pipe, while every later attempt would succeed end-to-end. -/
def envSendFail : Nat → AttemptEnv :=
  fun n => if n = 0 then AttemptEnv.mk none (some pipeExc) (RecvResult.chunks ["ok"])
           else AttemptEnv.mk none none (RecvResult.chunks ["ok"])

/-- JSON codec agreeing with `json.loads` on the body "42" (a valid JSON
document that is not an object). -/
def parse42 : String → Option Json :=
  fun s => if s = "42" then some (Json.num 42) else none

/-- Network in which every attempt succeeds and the server replies with
the bytes "42". -/
def envNum : Nat → AttemptEnv :=
  fun _ => AttemptEnv.mk none none (RecvResult.chunks ["42"])

/-!
Helper lemmas shared by the claim theorems.
-/

/-- Every `Except.ok` result of `_health_check` carries `success = true`. -/
lemma healthCheck_success (env : HostEnv) (r : Json)
    (h : healthCheck env = Except.ok r) :
    jget r "success" = some (Json.bool true) := by
  unfold healthCheck at h
  split at h
  · exact Except.noConfusion h
  · split at h
    · exact Except.noConfusion h
    · injection h with h
      subst h
      rfl

/-- Every result of `_get_scene_info` carries a boolean `success`. -/
lemma getSceneInfo_success (env : HostEnv) :
    ∃ b, jget (getSceneInfo env) "success" = some (Json.bool b) := by
  unfold getSceneInfo
  repeat' split
  all_goals first
    | exact ⟨true, rfl⟩
    | exact ⟨false, rfl⟩

/-- Every result of `_list_cameras` carries a boolean `success`. -/
lemma listCameras_success (env : HostEnv) :
    ∃ b, jget (listCameras env) "success" = some (Json.bool b) := by
  unfold listCameras
  repeat' split
  all_goals first
    | exact ⟨true, rfl⟩
    | exact ⟨false, rfl⟩

/-- Every result of `_execute_code` carries a boolean `success`. -/
lemma executeCode_success (env : HostEnv) (code : Json) :
    ∃ b, jget (executeCode env code) "success" = some (Json.bool b) := by
  unfold executeCode
  repeat' split
  all_goals first
    | exact ⟨true, rfl⟩
    | exact ⟨false, rfl⟩

/-- Every `Except.ok` result of the dispatch carries a boolean
`success`. -/
lemma dispatchCommand_success (cmd : Option Json) (p : Json) (env : HostEnv) (r : Json)
    (h : dispatchCommand cmd p env = Except.ok r) :
    ∃ b, jget r "success" = some (Json.bool b) := by
  unfold dispatchCommand at h
  split at h
  · split at h
    · exact ⟨true, healthCheck_success env r h⟩
    · split at h
      · injection h with h
        subst h
        exact getSceneInfo_success env
      · split at h
        · injection h with h
          subst h
          exact listCameras_success env
        · split at h
          · injection h with h
            subst h
            exact executeCode_success env _
          · injection h with h
            subst h
            exact ⟨false, rfl⟩
  all_goals
    injection h with h
    subst h
    exact ⟨false, rfl⟩

/-- The fault boundary preserves the success key: a caught exception is
itself converted to a `success = false` object. -/
lemma faultBoundary_success (res : Except PyExc Json)
    (hok : ∀ r, res = Except.ok r → ∃ b, jget r "success" = some (Json.bool b)) :
    ∃ b, jget (faultBoundary res) "success" = some (Json.bool b) := by
  cases res with
  | ok r => exact hok r rfl
  | error e => exact ⟨false, rfl⟩

/-- Every `Except.ok` result of `_process_request` carries a boolean
`success`. -/
lemma processRequest_success (req : Json) (env : HostEnv) (r : Json)
    (h : processRequest req env = Except.ok r) :
    ∃ b, jget r "success" = some (Json.bool b) := by
  unfold processRequest at h
  split at h
  · split at h
    · injection h with h
      subst h
      exact faultBoundary_success _ (fun r h => dispatchCommand_success _ _ env r h)
    · exact Except.noConfusion h
  · exact Except.noConfusion h

/-- When the receive loop decoded a request, the buffer it accumulated is
non-empty (a chunk was appended before any successful parse). -/
lemma recvLoop_some_buffer (parse : String → Option Json) (events : List RecvEvent) :
    ∀ buf : String, ((recvLoop parse events buf).request).isSome = true →
      ¬ (recvLoop parse events buf).buffer = "" := by
  induction events with
  | nil =>
    intro buf h
    simp [recvLoop] at h
  | cons ev rest ih =>
    intro buf h
    cases ev with
    | timeout => simp [recvLoop] at h
    | err e => simp [recvLoop] at h
    | chunk s =>
      by_cases hs : s = ""
      · simp only [recvLoop, if_pos hs] at h
        simp at h
      · simp only [recvLoop, if_neg hs] at h ⊢
        cases hp : parse (buf ++ s) with
        | some j =>
          simp only [hp] at h ⊢
          intro he
          apply hs
          have hd : (buf ++ s).data = buf.data ++ s.data := String.data_append buf s
          rw [he] at hd
          have hsd : s.data = [] := (List.append_eq_nil.mp hd.symm).2
          cases s
          simp_all
        | none =>
          simp only [hp] at h ⊢
          exact ih (buf ++ s) h

/-!
Claim theorems, server side.
-/

/-- C1: for every connection on which the receive loop decoded a complete
request — whatever the request and whatever the host environment does,
including any handler raising — the connection handler computes and writes
a response object carrying a boolean `success` key; a handler fault is
caught at the dispatch boundary (or, for faults outside it, at the
handler-level boundary) and becomes a `success = false` object rather than
aborting the connection without a payload. -/
theorem decoded_request_response_has_success (parse : String → Option Json)
    (env : HostEnv) (events : List RecvEvent) (req : Json)
    (h : (recvLoop parse events "").request = some req) :
    ∃ r, handleClient parse env events = some r ∧
      ∃ b, jget r "success" = some (Json.bool b) := by
  have hsome : ((recvLoop parse events "").request).isSome = true := by
    rw [h]
    rfl
  have hbuf := recvLoop_some_buffer parse events "" hsome
  cases hp : processRequest req env with
  | ok r =>
    refine ⟨r, ?_, processRequest_success req env r hp⟩
    unfold handleClient
    rw [if_neg hbuf]
    simp only [h, hp]
  | error e =>
    refine ⟨Json.obj [("success", Json.bool false),
                      ("error", Json.str ("Processing failed: " ++ e.msg))], ?_, false, rfl⟩
    unfold handleClient
    rw [if_neg hbuf]
    simp only [h, hp]

/-- C1 witness: a complete health_check request arriving in one chunk gets
a response with a boolean `success`. -/
theorem decoded_request_response_has_success_witness :
    ∃ r, handleClient parseDemo envDemo [RecvEvent.chunk reqDemoStr] = some r ∧
      ∃ b, jget r "success" = some (Json.bool b) :=
  decoded_request_response_has_success parseDemo envDemo
    [RecvEvent.chunk reqDemoStr] reqDemoJson rfl

/-- C4 (evaluation at the failing input): when the per-read timeout
elapses with a non-empty buffer that never decoded, the server does NOT
close silently — the unbound local `request` raises, the exception is
caught, and a `Processing failed` response is written to the socket.  The
last two conjuncts record that with an empty buffer (pure timeout, or an
immediate zero-byte read) the server does close without a response, as the
claim states. -/
theorem truncated_request_sends_processing_failed :
    handleClient parseDemo envDemo [RecvEvent.chunk truncDemoStr, RecvEvent.timeout]
      = some (Json.obj [("success", Json.bool false),
                        ("error", Json.str ("Processing failed: " ++ unboundLocalMsg))]) ∧
    truncDemoStr ≠ "" ∧
    handleClient parseDemo envDemo [RecvEvent.timeout] = none ∧
    handleClient parseDemo envDemo [RecvEvent.chunk ""] = none :=
  ⟨rfl, by decide, rfl, rfl⟩

/-- C6: a request whose command is a string not in the registry gets
`{success: false, error: "Unknown command: <name>"}` back, without any
exception escaping dispatch. -/
theorem unknown_command_error_response (env : HostEnv) (name : String)
    (params : List (String × Json))
    (h1 : name ≠ "health_check") (h2 : name ≠ "get_scene_info")
    (h3 : name ≠ "list_cameras") (h4 : name ≠ "execute_code") :
    processRequest (Json.obj [("command", Json.str name), ("params", Json.obj params)]) env
      = Except.ok (Json.obj [("success", Json.bool false),
                             ("error", Json.str ("Unknown command: " ++ name))]) := by
  have hd : dispatchCommand (some (Json.str name)) (Json.obj params) env
      = Except.ok (unknownResp name) := by
    show (if name = "health_check" then healthCheck env
          else if name = "get_scene_info" then Except.ok (getSceneInfo env)
          else if name = "list_cameras" then Except.ok (listCameras env)
          else if name = "execute_code" then
            Except.ok (executeCode env ((jget (Json.obj params) "code").getD (Json.str "")))
          else Except.ok (unknownResp name)) = Except.ok (unknownResp name)
    rw [if_neg h1, if_neg h2, if_neg h3, if_neg h4]
  calc processRequest (Json.obj [("command", Json.str name), ("params", Json.obj params)]) env
      = Except.ok (faultBoundary (dispatchCommand (some (Json.str name)) (Json.obj params) env)) := rfl
    _ = Except.ok (faultBoundary (Except.ok (unknownResp name))) := by rw [hd]
    _ = Except.ok (Json.obj [("success", Json.bool false),
                             ("error", Json.str ("Unknown command: " ++ name))]) := rfl

/-- C6 witness: the unknown command "frobnicate". -/
theorem unknown_command_error_response_witness :
    processRequest (Json.obj [("command", Json.str "frobnicate"), ("params", Json.obj [])]) envDemo
      = Except.ok (Json.obj [("success", Json.bool false),
                             ("error", Json.str ("Unknown command: " ++ "frobnicate"))]) :=
  unknown_command_error_response envDemo "frobnicate" []
    (by decide) (by decide) (by decide) (by decide)

/-- C5: a MemoryError raised by an execute_code payload is handled inside
the handler and reported as `{success: false, error: "Out of memory -
scene too complex for this operation"}` (an error text containing
"memory"); a RecursionError likewise becomes a handled `{success: false,
error}` result; in both cases dispatch receives an ordinary value
(`Except.ok`), so nothing escapes towards the connection layer. -/
theorem execute_code_resource_exhaustion_handled (env : HostEnv) (c1 c2 : String)
    (h1 : env.exec (Json.str c1) = ExecOutcome.memErr)
    (h2 : env.exec (Json.str c2) = ExecOutcome.recErr) :
    (processRequest (Json.obj [("command", Json.str "execute_code"),
                               ("params", Json.obj [("code", Json.str c1)])]) env
      = Except.ok (Json.obj [("success", Json.bool false),
          ("error", Json.str "Out of memory - scene too complex for this operation")])) ∧
    strHas "Out of memory - scene too complex for this operation" "memory" = true ∧
    (processRequest (Json.obj [("command", Json.str "execute_code"),
                               ("params", Json.obj [("code", Json.str c2)])]) env
      = Except.ok (Json.obj [("success", Json.bool false),
          ("error", Json.str "Operation too complex - recursion limit exceeded")])) := by
  refine ⟨?_, by decide, ?_⟩
  · show Except.ok (executeCode env (Json.str c1)) = _
    unfold executeCode
    rw [h1]
  · show Except.ok (executeCode env (Json.str c2)) = _
    unfold executeCode
    rw [h2]

/-- C5 witness: the demo environment raising MemoryError on "boom" and
RecursionError on "deep". -/
theorem execute_code_resource_exhaustion_handled_witness :
    (processRequest (Json.obj [("command", Json.str "execute_code"),
                               ("params", Json.obj [("code", Json.str "boom")])]) envDemo
      = Except.ok (Json.obj [("success", Json.bool false),
          ("error", Json.str "Out of memory - scene too complex for this operation")])) ∧
    strHas "Out of memory - scene too complex for this operation" "memory" = true ∧
    (processRequest (Json.obj [("command", Json.str "execute_code"),
                               ("params", Json.obj [("code", Json.str "deep")])]) envDemo
      = Except.ok (Json.obj [("success", Json.bool false),
          ("error", Json.str "Operation too complex - recursion limit exceeded")])) :=
  execute_code_resource_exhaustion_handled envDemo "boom" "deep" rfl rfl

/-- C10: an execute_code request whose params omit "code" or bind it to
the empty string runs the empty program (which leaves the `result` slot
as None) and yields `{success: true, message: "Code executed
successfully"}`, not an error. -/
theorem execute_code_missing_code_success (env : HostEnv) (params : List (String × Json))
    (hcode : jget (Json.obj params) "code" = none ∨
             jget (Json.obj params) "code" = some (Json.str ""))
    (hexec : env.exec (Json.str "") = ExecOutcome.normal Json.null) :
    processRequest (Json.obj [("command", Json.str "execute_code"),
                              ("params", Json.obj params)]) env
      = Except.ok (Json.obj [("success", Json.bool true),
                             ("message", Json.str "Code executed successfully")]) := by
  show Except.ok (executeCode env ((jget (Json.obj params) "code").getD (Json.str ""))) = _
  have hc : (jget (Json.obj params) "code").getD (Json.str "") = Json.str "" := by
    cases hcode with
    | inl h => rw [h]; rfl
    | inr h => rw [h]; rfl
  rw [hc]
  unfold executeCode
  rw [hexec]

/-- C10 witness: params entirely empty. -/
theorem execute_code_missing_code_success_witness :
    processRequest (Json.obj [("command", Json.str "execute_code"),
                              ("params", Json.obj [])]) envDemo
      = Except.ok (Json.obj [("success", Json.bool true),
                             ("message", Json.str "Code executed successfully")]) :=
  execute_code_missing_code_success envDemo [] (Or.inl rfl) rfl

/-- C8 counterexample: the health response of a concrete healthy host has
no key named "version" — the Blender version travels under
"blender_version" — so the claim that the response contains the key
`version` fails on the code. -/
theorem health_check_no_version_key_cex :
    healthCheck envDemo = Except.ok (Json.obj [("success", Json.bool true),
      ("status", Json.str "healthy"), ("blender_version", Json.str "4.0.2"),
      ("timestamp", Json.num 1700000000)]) ∧
    jget (Json.obj [("success", Json.bool true), ("status", Json.str "healthy"),
      ("blender_version", Json.str "4.0.2"), ("timestamp", Json.num 1700000000)])
      "version" = none :=
  ⟨rfl, rfl⟩

/-- C8 amended: whenever reading the version string and the clock does not
fault, health_check returns exactly the object with keys `success`
(true), `status` ("healthy"), `blender_version` and `timestamp` — in
particular it never returns a `success = false` response itself (a fault
propagates as an exception to the dispatch boundary instead). -/
theorem health_check_keys (env : HostEnv) (v : String) (t : Int)
    (hv : env.versionString = Except.ok v) (ht : env.timestamp = Except.ok t) :
    healthCheck env = Except.ok (Json.obj [("success", Json.bool true),
      ("status", Json.str "healthy"), ("blender_version", Json.str v),
      ("timestamp", Json.num t)]) := by
  unfold healthCheck
  rw [hv, ht]

/-- C8 witness: the demo host. -/
theorem health_check_keys_witness :
    healthCheck envDemo = Except.ok (Json.obj [("success", Json.bool true),
      ("status", Json.str "healthy"), ("blender_version", Json.str "4.0.2"),
      ("timestamp", Json.num 1700000000)]) :=
  health_check_keys envDemo "4.0.2" 1700000000 rfl rfl

/-- C9: a successful list_cameras response reports under `count` exactly
the length of the list it reports under `cameras` (both are built from
the same filtered camera list), with `success = true`. -/
theorem list_cameras_count_matches (env : HostEnv) (os : List SceneObj)
    (active : Option String)
    (ho : env.objects = Except.ok os) (hc : env.sceneCamera = Except.ok active) :
    jget (listCameras env) "success" = some (Json.bool true) ∧
    jget (listCameras env) "cameras"
      = some (Json.arr ((os.filter (fun o => o.otype == "CAMERA")).map (cameraEntry active))) ∧
    jget (listCameras env) "count"
      = some (Json.num ((os.filter (fun o => o.otype == "CAMERA")).map (cameraEntry active)).length) := by
  unfold listCameras
  rw [ho, hc]
  exact ⟨rfl, rfl, rfl⟩

/-- C9 witness: with no cameras registered the response carries
`success = true`, `cameras = []` and `count = 0`. -/
theorem list_cameras_count_matches_witness :
    jget (listCameras envDemo) "success" = some (Json.bool true) ∧
    jget (listCameras envDemo) "cameras" = some (Json.arr []) ∧
    jget (listCameras envDemo) "count" = some (Json.num 0) :=
  list_cameras_count_matches envDemo [] none rfl rfl

/-!
Claim theorems, client side.
-/

/-- Every in-attempt error return of one client attempt (send failure,
receive timeout, connection loss, empty response, decode failure) is a
`{success: false, error: <string>}` object. -/
lemma attemptStep_localErr_shaped (cfg : ClientCfg) (parse : String → Option Json)
    (a : AttemptEnv) (j : Json)
    (h : attemptStep cfg parse a = StepResult.localErr j) : errorShaped j := by
  unfold attemptStep at h
  repeat' split at h
  all_goals first
    | exact StepResult.noConfusion h
    | (injection h with h; subst h; exact ⟨rfl, _, rfl⟩)

/-- Unfolding: an attempt resolving to a local error ends the loop at once
with that response. -/
lemma sendCommandFrom_localErr (cfg : ClientCfg) (parse : String → Option Json)
    (env : Nat → AttemptEnv) (attempt r : Nat) (j : Json)
    (h : attemptStep cfg parse (env attempt) = StepResult.localErr j) :
    sendCommandFrom cfg parse env attempt (r + 1) = (j, 1) := by
  unfold sendCommandFrom
  rw [h]

/-- Unfolding: a caught connect failure on a non-last attempt recurses
with the attempt counter advanced. -/
lemma sendCommandFrom_connFail_cons (cfg : ClientCfg) (parse : String → Option Json)
    (env : Nat → AttemptEnv) (attempt r : Nat) (e : PyExc)
    (h : attemptStep cfg parse (env attempt) = StepResult.connFail e) (hr : ¬ r = 0) :
    sendCommandFrom cfg parse env attempt (r + 1)
      = ((sendCommandFrom cfg parse env (attempt + 1) r).1,
         (sendCommandFrom cfg parse env (attempt + 1) r).2 + 1) := by
  conv_lhs => rw [sendCommandFrom, h]
  dsimp only
  rw [if_neg hr]

/-- Unfolding: a caught connect failure on the last attempt produces the
final connect error. -/
lemma sendCommandFrom_connFail_last (cfg : ClientCfg) (parse : String → Option Json)
    (env : Nat → AttemptEnv) (attempt : Nat) (e : PyExc)
    (h : attemptStep cfg parse (env attempt) = StepResult.connFail e) :
    sendCommandFrom cfg parse env attempt (0 + 1) = (connectFinalResp cfg e, 1) := by
  conv_lhs => rw [sendCommandFrom, h]
  rfl

/-- C2 counterexample: the send fails (broken pipe) on the first of three
attempts while every later attempt would succeed, yet the client returns
the send-failure error after a single connection attempt instead of
retrying — so these failure kinds are not retried like connect failures.
The second conjunct shows the second attempt of the same environment would
have delivered a payload. -/
theorem send_failure_first_attempt_not_retried_cex :
    sendCommandRun cfgDemo okParse "health_check" none envSendFail
      = (Json.obj [("success", Json.bool false),
                   ("error", Json.str "Failed to send command: Broken pipe")], 1) ∧
    attemptStep cfgDemo okParse (envSendFail 1)
      = StepResult.payload (Json.obj [("success", Json.bool true)]) :=
  ⟨rfl, rfl⟩

/-- C2 amended: a send failure, receive timeout, connection loss, decode
failure (or empty response) occurring on any attempt — last or not — is
surfaced immediately as a `{success: false, error}` result with exactly
one connection attempt consumed and no retry; only connection-establishment
failures (and exceptions unmatched by the specific handlers) are retried. -/
theorem session_failure_immediate_no_retry (cfg : ClientCfg) (parse : String → Option Json)
    (env : Nat → AttemptEnv) (attempt r : Nat) (j : Json)
    (h : attemptStep cfg parse (env attempt) = StepResult.localErr j) :
    sendCommandFrom cfg parse env attempt (r + 1) = (j, 1) ∧ errorShaped j :=
  ⟨sendCommandFrom_localErr cfg parse env attempt r j h,
   attemptStep_localErr_shaped cfg parse (env attempt) j h⟩

/-- C2 witness: broken-pipe send failure on the first of three attempts. -/
theorem session_failure_immediate_no_retry_witness :
    sendCommandFrom cfgDemo okParse envSendFail 0 (2 + 1) = (sendFailResp pipeExc, 1) ∧
    errorShaped (sendFailResp pipeExc) :=
  session_failure_immediate_no_retry cfgDemo okParse envSendFail 0 2 (sendFailResp pipeExc) rfl

/-- C3 counterexample: against a network refusing every connection the
client does perform 3 connection attempts, but the final value carries the
"Cannot connect to Blender server at ..." message, not "All connection
attempts failed" (the fallback after the loop is unreachable, since the
last attempt already returns). -/
theorem closed_port_final_error_message_cex :
    (sendCommandRun cfgDemo noParse "health_check" none envRefused).2 = 3 ∧
    ∃ m, jget (sendCommandRun cfgDemo noParse "health_check" none envRefused).1 "error"
        = some (Json.str m) ∧
      m ≠ "All connection attempts failed" :=
  ⟨rfl,
   "Cannot connect to Blender server at 127.0.0.1:8765. Make sure Blender socket server is running. Error: [Errno 111] Connection refused",
   rfl, by decide⟩

/-- C3 amended: when all three attempts fail to connect with caught
exception kinds, the client performs exactly 3 connection attempts and
returns the `{success: false, error: "Cannot connect to Blender server at
<host>:<port>. ... Error: <e>"}` built from the last attempt's
exception. -/
theorem closed_port_three_attempts_connect_error (cfg : ClientCfg)
    (parse : String → Option Json) (cmd : String)
    (params : Option (List (String × Json))) (env : Nat → AttemptEnv) (e0 e1 e2 : PyExc)
    (h0 : attemptStep cfg parse (env 0) = StepResult.connFail e0)
    (h1 : attemptStep cfg parse (env 1) = StepResult.connFail e1)
    (h2 : attemptStep cfg parse (env 2) = StepResult.connFail e2) :
    sendCommandRun cfg parse cmd params env = (connectFinalResp cfg e2, 3) ∧
    errorShaped (connectFinalResp cfg e2) := by
  have s2 : sendCommandFrom cfg parse env 2 1 = (connectFinalResp cfg e2, 1) :=
    sendCommandFrom_connFail_last cfg parse env 2 e2 h2
  have s1 : sendCommandFrom cfg parse env 1 2 = (connectFinalResp cfg e2, 2) := by
    have hstep := sendCommandFrom_connFail_cons cfg parse env 1 1 e1 h1 (by decide)
    rw [s2] at hstep
    exact hstep
  have s0 : sendCommandFrom cfg parse env 0 3 = (connectFinalResp cfg e2, 3) := by
    have hstep := sendCommandFrom_connFail_cons cfg parse env 0 2 e0 h0 (by decide)
    rw [s1] at hstep
    exact hstep
  exact ⟨s0, rfl, _, rfl⟩

/-- C3 witness: every connect refused with ECONNREFUSED. -/
theorem closed_port_three_attempts_connect_error_witness :
    sendCommandRun cfgDemo noParse "health_check" none envRefused
      = (connectFinalResp cfgDemo refusedExc, 3) ∧
    errorShaped (connectFinalResp cfgDemo refusedExc) :=
  closed_port_three_attempts_connect_error cfgDemo noParse "health_check" none envRefused
    refusedExc refusedExc refusedExc rfl rfl rfl

/-- C7 counterexample: when the server's reply is the valid JSON document
"42" — not an object — the client returns the number 42 as-is, so
`_send_command` does not return a dictionary on every execution path. -/
theorem send_command_nondict_payload_cex :
    sendCommand cfgDemo parse42 "health_check" none envNum = Json.num 42 ∧
    Json.isObj (Json.num 42) = false :=
  ⟨rfl, rfl⟩

/-- Shape invariant of the retry loop: starting anywhere with any budget,
the returned value is either an error-shaped local result or the payload
decoded by one of the attempts within the budget. -/
lemma sendCommandFrom_shape (cfg : ClientCfg) (parse : String → Option Json)
    (env : Nat → AttemptEnv) :
    ∀ r attempt : Nat,
      errorShaped (sendCommandFrom cfg parse env attempt r).1 ∨
      ∃ i, attempt ≤ i ∧ i < attempt + r ∧
        attemptStep cfg parse (env i)
          = StepResult.payload (sendCommandFrom cfg parse env attempt r).1 := by
  intro r
  induction r with
  | zero =>
    intro attempt
    left
    exact ⟨rfl, _, rfl⟩
  | succ n ih =>
    intro attempt
    cases hstep : attemptStep cfg parse (env attempt) with
    | payload j =>
      right
      have he : sendCommandFrom cfg parse env attempt (n + 1) = (j, 1) := by
        unfold sendCommandFrom
        rw [hstep]
      refine ⟨attempt, le_refl _, by omega, ?_⟩
      rw [he]
      exact hstep
    | localErr j =>
      left
      have he : sendCommandFrom cfg parse env attempt (n + 1) = (j, 1) :=
        sendCommandFrom_localErr cfg parse env attempt n j hstep
      rw [he]
      exact attemptStep_localErr_shaped cfg parse (env attempt) j hstep
    | connFail e =>
      by_cases hn : n = 0
      · subst hn
        have he := sendCommandFrom_connFail_last cfg parse env attempt e hstep
        left
        rw [he]
        exact ⟨rfl, _, rfl⟩
      · have he := sendCommandFrom_connFail_cons cfg parse env attempt n e hstep hn
        rw [he]
        rcases ih (attempt + 1) with hl | ⟨i, hi1, hi2, hi3⟩
        · left
          exact hl
        · right
          exact ⟨i, by omega, by omega, hi3⟩
    | raised e =>
      by_cases hn : n = 0
      · subst hn
        have he : sendCommandFrom cfg parse env attempt (0 + 1) = (unexpectedResp e, 1) := by
          conv_lhs => rw [sendCommandFrom, hstep]
          rfl
        left
        rw [he]
        exact ⟨rfl, _, rfl⟩
      · have he : sendCommandFrom cfg parse env attempt (n + 1)
            = ((sendCommandFrom cfg parse env (attempt + 1) n).1,
               (sendCommandFrom cfg parse env (attempt + 1) n).2 + 1) := by
          conv_lhs => rw [sendCommandFrom, hstep]
          dsimp only
          rw [if_neg hn]
        rw [he]
        rcases ih (attempt + 1) with hl | ⟨i, hi1, hi2, hi3⟩
        · left
          exact hl
        · right
          exact ⟨i, by omega, by omega, hi3⟩

/-- C7 amended: `_send_command` always returns a value — every exception
arising in an attempt is caught (by a specific handler or the outer catch)
— and that value is either a locally built `{success: false, error}`
dictionary, or the decoded server reply returned as-is by one of the at
most 3 attempts (a dictionary exactly when the server sent a JSON
object). -/
theorem send_command_resolves_locally (cfg : ClientCfg) (parse : String → Option Json)
    (cmd : String) (params : Option (List (String × Json))) (env : Nat → AttemptEnv) :
    errorShaped (sendCommand cfg parse cmd params env) ∨
    ∃ i, i < 3 ∧ attemptStep cfg parse (env i)
      = StepResult.payload (sendCommand cfg parse cmd params env) := by
  rcases sendCommandFrom_shape cfg parse env 3 0 with hl | ⟨i, _, hi2, hi3⟩
  · left
    exact hl
  · right
    exact ⟨i, by omega, hi3⟩

end BlenderRPC
